import Mathlib

/-
Shallow embedding of the FLOWMIND-RA frequency-volume-chart analyzer
(src/NPapp.py).  Numeric quantities are modelled with the rationals (the
Python code computes with int/float on small clinical magnitudes), and a
call that can raise an exception is modelled with Option, none standing
for the raised error.  The post-submit computation of main (aggregation,
metric computation, the 4-hour pre-bedtime intake check and the
long-interval check) is embedded as the pure function analyze.
-/

namespace NPapp

/-- Value of a nonempty all-digit character list, none otherwise.  Together
with pyInt? this models the sign-and-digits fragment of Python int() that
this program can reach (time strings come from the fixed 15-minute slot
list, the OCR regex, or user table cells); surrounding whitespace and
underscore digit separators are not modelled. -/
def digitsVal? (l : List Char) : Option Nat :=
  if l ≠ [] ∧ l.all Char.isDigit then
    some (l.foldl (fun a c => 10 * a + (c.toNat - 48)) 0)
  else none

/-- Python int() on an optionally signed digit string, over its character
list; none models a raised ValueError. -/
def pyInt? (s : List Char) : Option Int :=
  match s with
  | '-' :: rest => (digitsVal? rest).map (fun n => -(n : Int))
  | '+' :: rest => (digitsVal? rest).map (fun n => (n : Int))
  | l => (digitsVal? l).map (fun n => (n : Int))

/-- Python str.split applied with the separator ":": chunks of characters
between the colons, keeping empty chunks, so the chunk count is always one
more than the colon count. -/
def splitOnColon : List Char → List (List Char)
  | [] => [[]]
  | c :: t =>
    if c = ':' then [] :: splitOnColon t
    else
      match splitOnColon t with
      | [] => [[c]]
      | h :: r => (c :: h) :: r

/-- The source's parse_time_to_minutes (lines 105-111): converts "HH:MM" to
minutes since midnight.  none models the ValueError raised when the string
does not split on ":" into exactly two integer literals.  The source makes
no range check on the hour or minute values. -/
def parse_time_to_minutes (time_str : String) : Option Int :=
  match splitOnColon time_str.toList with
  | [hh, mm] => (pyInt? hh).bind (fun h => (pyInt? mm).map (fun m => h * 60 + m))
  | _ => none

/-- Test that the first list is an initial segment of the second. -/
def headMatch : List Char → List Char → Bool
  | [], _ => true
  | _ :: _, [] => false
  | a :: as, b :: bs => a == b && headMatch as bs

/-- Python's substring containment test (the in operator) on character
lists. -/
def containsSub (n : List Char) : List Char → Bool
  | [] => headMatch n []
  | c :: t => headMatch n (c :: t) || containsSub n t

/-- Case-insensitive substring test: Python key.lower() in text.lower(). -/
def occursIn (needle hay : String) : Bool :=
  containsSub (needle.toList.map Char.toLower) (hay.toList.map Char.toLower)

/-- The ACTIVITY_MAPPING dict of normalize_activity (insertion order is the
iteration order of a Python dict). -/
def ACTIVITY_MAPPING : List (String × String) :=
  [("First Morning Void", "First Morning Void"),
   ("Daytime Void", "Daytime Void"),
   ("Bedtime Void", "Bedtime Void"),
   ("Nighttime Void", "Nighttime Void")]

/-- The source's normalize_activity (lines 113-126): the first canonical
phrase, in declared order, occurring case-insensitively in the text;
"Unknown Activity" when none occurs. -/
def normalize_activity (activity_text : String) : String :=
  match ACTIVITY_MAPPING.find? (fun kv => occursIn kv.1 activity_text) with
  | some kv => kv.2
  | none => "Unknown Activity"

/-- Result bundle of calculate_metrics. -/
structure Metrics where
  total_urine_flag : Bool
  npi : ℚ
  nocturnal_polyuria_flag : Bool
  diminished_bladder_capacity_flag : Bool
  ni : ℚ
  pnv : ℚ
  nbci : ℚ
deriving DecidableEq

/-- The source's calculate_metrics (lines 128-174), unchanged logic. -/
def calculate_metrics (total_urine_volume nocturnal_urine_volume max_voided_volume : ℚ)
    (actual_night_urinations : ℤ) (user_age : ℤ) : Metrics :=
  let total_urine_flag := decide (total_urine_volume > 40 * 1000)
  let npi : ℚ :=
    if total_urine_volume > 0 then nocturnal_urine_volume / total_urine_volume * 100 else 0
  let nocturnal_polyuria_flag :=
    if 40 ≤ user_age ∧ user_age ≤ 65 then decide (npi > 20) else decide (npi > 33)
  let diminished_bladder_capacity_flag := decide (max_voided_volume < 200)
  let ni : ℚ :=
    if max_voided_volume > 0 then nocturnal_urine_volume / max_voided_volume else 0
  let pnv : ℚ := if ni > 1 then ni - 1 else 0
  let nbci : ℚ := (actual_night_urinations : ℚ) - pnv
  { total_urine_flag := total_urine_flag
    npi := npi
    nocturnal_polyuria_flag := nocturnal_polyuria_flag
    diminished_bladder_capacity_flag := diminished_bladder_capacity_flag
    ni := ni
    pnv := pnv
    nbci := nbci }

/-- Severity banding of NBCI: the threshold chain of main (lines 597-616),
with the band names the specification gives the four branches. -/
def nbci_band (nbci : ℚ) : String :=
  if nbci > 2 then "severe nocturia"
  else if nbci > 1.3 then "diminished nocturnal bladder capacity"
  else if nbci > 0 then "nocturia suspected"
  else "no abnormality"

/-- One row of a day's frequency-volume-chart table. -/
structure Row where
  activity : String
  time : String
  intake : ℚ
  output : ℚ
  leak : String
deriving DecidableEq

/-- The 4-hour pre-bedtime intake scan of main (lines 572-592), given the
already-parsed bedtime in minutes.  A row counts when its intake is positive
and its time parses and falls in the window; a row whose time does not parse
is skipped (the except-continue branch). -/
def found_4hr_intake (rows : List Row) (bed_time_mins : ℤ) : Bool :=
  let cutoff0 := bed_time_mins - 240
  let cutoff := if cutoff0 < 0 then cutoff0 + 1440 else cutoff0
  rows.any fun row =>
    decide (0 < row.intake) &&
      (match parse_time_to_minutes row.time with
       | none => false
       | some t =>
         if cutoff < bed_time_mins then decide (cutoff ≤ t ∧ t < bed_time_mins)
         else decide (cutoff ≤ t ∨ t < bed_time_mins))

/-- The valid void times in minutes (lines 647-655): the literal "None" is
skipped explicitly, any other unparseable time is skipped by the
except-continue branch. -/
def void_times_mins (rows : List Row) : List ℤ :=
  rows.filterMap fun r =>
    if r.time = "None" then none else parse_time_to_minutes r.time

/-- One interval of the loop at lines 663-671: next - current when the next
time is strictly later, otherwise the wrap-around value (1440 - current) +
next. -/
def step_interval (current next : ℤ) : ℤ :=
  if next > current then next - current else (1440 - current) + next

/-- Python sorted on integers: the sorted permutation (unique over ℤ). -/
def sortTimes (ts : List ℤ) : List ℤ :=
  ts.insertionSort (· ≤ ·)

/-- The interval list of the loop at lines 663-671 over an already-sorted
time list: index i is paired with index (i+1) mod length. -/
def intervals_of (ts : List ℤ) : List ℤ :=
  (List.range ts.length).map fun i =>
    step_interval (ts.getD i 0) (ts.getD ((i + 1) % ts.length) 0)

/-- The long-interval (over 6 hours) check of main (lines 647-677): with at
least two valid times, sort them and flag when any interval of the circular
loop exceeds 360 minutes; otherwise the flag stays false. -/
def long_interval_flag (rows : List Row) : Bool :=
  let ts := void_times_mins rows
  if ts.length > 1 then
    (intervals_of (sortTimes ts)).any fun i => decide (i > 360)
  else false

/-- The circular successive differences of a sorted time list as the
specification describes them for the long-interval check: each successive
difference next - current, and the last interval wrapping back to the first
plus 1440.  This claim-side definition follows the spec's words, for
comparison with the source-side intervals_of. -/
def claim_circular_intervals : List ℤ → List ℤ
  | [] => []
  | t :: ts =>
    List.zipWith (fun a b => b - a) (t :: ts) ts ++ [(t + 1440) - (t :: ts).getLastD 0]

/-- Results of one submit pass of main for one day. -/
structure DayResult where
  total_intake : ℚ
  total_output : ℚ
  nocturnal_output : ℚ
  max_voided_volume : ℚ
  nocturnal_urinations : ℤ
  metrics : Metrics
  num_leaks : ℕ
  proper_urine_output : ℚ
  below_proper_flag : Bool
  found_4hr_intake_shown : Bool
  has_large_interval : Bool
deriving DecidableEq

/-- The post-submit computation of main (lines 511-677) as a pure function
of the table rows, the patient age, the body weight and the parsed bedtime.
The pandas max of an empty column is not a number; per the specification the
empty log is treated as max_voided_volume 0 (every downstream use is guarded,
so the ratio results agree).  The pre-bedtime message is shown only when the
nocturnal-polyuria flag is raised. -/
def analyze (rows : List Row) (user_age : ℤ) (body_weight : ℚ)
    (bed_time_mins : ℤ) : DayResult :=
  let total_intake := (rows.map Row.intake).sum
  let total_output := (rows.map Row.output).sum
  let nighttime := rows.filter fun r => r.activity == "Nighttime Void"
  let first_morning := rows.filter fun r => r.activity == "First Morning Void"
  let nocturnal_output := (nighttime.map Row.output).sum + (first_morning.map Row.output).sum
  let max_voided_volume := (rows.map Row.output).foldr max 0
  let nocturnal_urinations : ℤ := nighttime.length
  let metrics :=
    calculate_metrics total_output nocturnal_output max_voided_volume
      nocturnal_urinations user_age
  let num_leaks := (rows.filter fun r => r.leak == "Y").length
  let proper_urine_output := body_weight * 0.5 * 24
  { total_intake := total_intake
    total_output := total_output
    nocturnal_output := nocturnal_output
    max_voided_volume := max_voided_volume
    nocturnal_urinations := nocturnal_urinations
    metrics := metrics
    num_leaks := num_leaks
    proper_urine_output := proper_urine_output
    below_proper_flag := decide (total_output < proper_urine_output)
    found_4hr_intake_shown := metrics.nocturnal_polyuria_flag && found_4hr_intake rows bed_time_mins
    has_large_interval := long_interval_flag rows }

/-- The shipped demo log (lines 436-444, identical to the expander data at
lines 356-363). -/
def demoRows : List Row :=
  [⟨"First Morning Void", "06:00", 0, 150, "N"⟩,
   ⟨"Daytime Void", "08:00", 250, 200, "N"⟩,
   ⟨"Daytime Void", "12:00", 300, 250, "N"⟩,
   ⟨"Daytime Void", "18:00", 400, 300, "N"⟩,
   ⟨"Bedtime Void", "22:00", 200, 100, "N"⟩,
   ⟨"Nighttime Void", "02:00", 0, 150, "Y"⟩]

/-- Rows whose parsed times are [0, 0, 360, 720, 1080]: two equal times, and
all circular successive differences of the sorted list are at most 360. -/
def dupRows : List Row :=
  [⟨"Daytime Void", "00:00", 0, 0, "N"⟩,
   ⟨"Daytime Void", "00:00", 0, 0, "N"⟩,
   ⟨"Daytime Void", "06:00", 0, 0, "N"⟩,
   ⟨"Daytime Void", "12:00", 0, 0, "N"⟩,
   ⟨"Daytime Void", "18:00", 0, 0, "N"⟩]

/-- Claim C6: normalize_activity is total and returns the first of the four
canonical phrases, checked in declared order, that occurs case-insensitively
as a substring of the input, and the Unknown sentinel when none occurs. -/
theorem C6_normalize_activity_first_match (s : String) :
    normalize_activity s =
      (if occursIn "First Morning Void" s then "First Morning Void"
       else if occursIn "Daytime Void" s then "Daytime Void"
       else if occursIn "Bedtime Void" s then "Bedtime Void"
       else if occursIn "Nighttime Void" s then "Nighttime Void"
       else "Unknown Activity") := by
  unfold normalize_activity ACTIVITY_MAPPING
  cases h1 : occursIn "First Morning Void" s <;>
    cases h2 : occursIn "Daytime Void" s <;>
      cases h3 : occursIn "Bedtime Void" s <;>
        cases h4 : occursIn "Nighttime Void" s <;>
          simp [List.find?, h1, h2, h3, h4]

/-- Claim C8: the nocturnal-polyuria flag compares npi against 20 when the
age lies in the inclusive band 40..65 and against 33 otherwise; in
particular npi = 21 raises the flag at age 40 but not at age 39. -/
theorem C8_age_band_threshold :
    (∀ (t n m : ℚ) (c a : ℤ),
        (calculate_metrics t n m c a).nocturnal_polyuria_flag =
          (if 40 ≤ a ∧ a ≤ 65 then decide ((calculate_metrics t n m c a).npi > 20)
           else decide ((calculate_metrics t n m c a).npi > 33))) ∧
    (calculate_metrics 100 21 300 1 40).nocturnal_polyuria_flag = true ∧
    (calculate_metrics 100 21 300 1 65).nocturnal_polyuria_flag = true ∧
    (calculate_metrics 100 21 300 1 39).nocturnal_polyuria_flag = false ∧
    (calculate_metrics 100 21 300 1 66).nocturnal_polyuria_flag = false := by
  refine ⟨fun t n m c a => rfl, ?_, ?_, ?_, ?_⟩ <;> norm_num [calculate_metrics]

/-- Claim C9: the total-urine flag is exactly total output over 40000 ml, an
absolute constant; body weight, which only enters the proper-urine-output
threshold, never rescales it. -/
theorem C9_total_urine_flag_absolute :
    (∀ (t n m : ℚ) (c a : ℤ),
        (calculate_metrics t n m c a).total_urine_flag = decide (t > 40000)) ∧
    (∀ (rows : List Row) (age : ℤ) (w w' : ℚ) (bed : ℤ),
        (analyze rows age w bed).metrics.total_urine_flag =
          (analyze rows age w' bed).metrics.total_urine_flag ∧
        (analyze rows age w bed).metrics.total_urine_flag =
          decide ((analyze rows age w bed).total_output > 40000)) := by
  have h40 : (40 * 1000 : ℚ) = 40000 := by norm_num
  constructor
  · intro t n m c a
    simp [calculate_metrics, h40]
  · intro rows age w w' bed
    refine ⟨rfl, ?_⟩
    simp [analyze, calculate_metrics, h40]

/-- Claim C4: every division of the metrics computation is guarded: npi is 0
when the total output is not positive, ni is 0 when the max voided volume is
not positive, and on the empty log the max is taken as 0 and npi, ni and pnv
all resolve to 0; no operation can fail. -/
theorem C4_guarded_divisions :
    (∀ (t n m : ℚ) (c a : ℤ), t ≤ 0 → (calculate_metrics t n m c a).npi = 0) ∧
    (∀ (t n m : ℚ) (c a : ℤ), m ≤ 0 → (calculate_metrics t n m c a).ni = 0) ∧
    (∀ (a : ℤ) (w : ℚ) (bed : ℤ),
        (analyze [] a w bed).max_voided_volume = 0 ∧
        (analyze [] a w bed).metrics.npi = 0 ∧
        (analyze [] a w bed).metrics.ni = 0 ∧
        (analyze [] a w bed).metrics.pnv = 0) := by
  refine ⟨?_, ?_, ?_⟩
  · intro t n m c a h
    simp [calculate_metrics, not_lt.mpr h]
  · intro t n m c a h
    simp [calculate_metrics, not_lt.mpr h]
  · intro a w bed
    norm_num [analyze, calculate_metrics]

/-- Witness for C4 at concrete inputs: total 0, max 0, and the empty log. -/
theorem C4_guarded_divisions_witness :
    (calculate_metrics 0 5 3 1 50).npi = 0 ∧
    (calculate_metrics 10 5 0 1 50).ni = 0 ∧
    (analyze [] 50 70 1320).metrics.pnv = 0 :=
  ⟨C4_guarded_divisions.1 0 5 3 1 50 (by norm_num),
   C4_guarded_divisions.2.1 10 5 0 1 50 (by norm_num),
   (C4_guarded_divisions.2.2 50 70 1320).2.2.2⟩

/-- Claim C1: on the shipped demo log with age 50 the pipeline yields total
output 1150, nocturnal output 300, max 300, one nighttime void, npi equal to
300 / 1150 * 100, the nocturnal-polyuria flag raised (band 40..65, threshold
20), ni = 1, pnv = 0, nbci = 1 landing in the "nocturia suspected" band, and
neither the diminished-bladder-capacity flag nor the total-urine flag. -/
theorem C1_demo_pipeline :
    (analyze demoRows 50 70 1320).total_output = 1150 ∧
    (analyze demoRows 50 70 1320).nocturnal_output = 300 ∧
    (analyze demoRows 50 70 1320).max_voided_volume = 300 ∧
    (analyze demoRows 50 70 1320).nocturnal_urinations = 1 ∧
    (analyze demoRows 50 70 1320).metrics.npi = 300 / 1150 * 100 ∧
    (analyze demoRows 50 70 1320).metrics.nocturnal_polyuria_flag = true ∧
    (analyze demoRows 50 70 1320).metrics.ni = 1 ∧
    (analyze demoRows 50 70 1320).metrics.pnv = 0 ∧
    (analyze demoRows 50 70 1320).metrics.nbci = 1 ∧
    nbci_band (analyze demoRows 50 70 1320).metrics.nbci = "nocturia suspected" ∧
    (analyze demoRows 50 70 1320).metrics.diminished_bladder_capacity_flag = false ∧
    (analyze demoRows 50 70 1320).metrics.total_urine_flag = false := by
  refine ⟨?_, ?_, ?_, ?_, ?_, ?_, ?_, ?_, ?_, ?_, ?_, ?_⟩ <;>
    norm_num +decide [analyze, calculate_metrics, nbci_band, demoRows, List.filter_cons, max_def]

/-- Counterexample to claim C5: parse_time_to_minutes makes no range check,
so the string "25:00", whose hour lies outside 0..23, returns the value 1500
instead of failing, and 1500 lies outside 0..1439. -/
theorem C5_counterexample :
    parse_time_to_minutes "25:00" = some 1500 ∧ (1439 : ℤ) < 1500 := by
  constructor
  · decide
  · decide

/-- Claim C5 as amended: parse_time_to_minutes succeeds exactly when the
input splits on ":" into two integer literals, returning hour * 60 + minute
with no range validation; when additionally the hour lies in 0..23 and the
minute in 0..59 the value lies in 0..1439. -/
theorem C5_amended_parse_characterization :
    (∀ (s : String) (v : ℤ),
        parse_time_to_minutes s = some v ↔
          ∃ hh mm h m, splitOnColon s.toList = [hh, mm] ∧ pyInt? hh = some h ∧
            pyInt? mm = some m ∧ v = h * 60 + m) ∧
    (∀ (s : String) (hh mm : List Char) (h m : ℤ),
        splitOnColon s.toList = [hh, mm] → pyInt? hh = some h → pyInt? mm = some m →
          0 ≤ h → h ≤ 23 → 0 ≤ m → m ≤ 59 →
          parse_time_to_minutes s = some (h * 60 + m) ∧
            0 ≤ h * 60 + m ∧ h * 60 + m ≤ 1439) := by
  have key : ∀ (s : String) (v : ℤ),
      parse_time_to_minutes s = some v ↔
        ∃ hh mm h m, splitOnColon s.toList = [hh, mm] ∧ pyInt? hh = some h ∧
          pyInt? mm = some m ∧ v = h * 60 + m := by
    intro s v
    unfold parse_time_to_minutes
    rcases e : splitOnColon s.toList with _ | ⟨hh, _ | ⟨mm, _ | ⟨x, rest⟩⟩⟩ <;>
      simp only [e]
    · simp
    · simp
    · cases eh : pyInt? hh with
      | none => simp [eh]
      | some a =>
        cases em : pyInt? mm with
        | none => simp [eh, em]
        | some b =>
          simp [eh, em]
          constructor
          · rintro rfl
            exact ⟨hh, mm, ⟨rfl, rfl⟩, a, eh, b, em, rfl⟩
          · rintro ⟨hh1, mm1, ⟨rfl, rfl⟩, x, hx, y, hy, rfl⟩
            rw [eh] at hx
            rw [em] at hy
            simp only [Option.some.injEq] at hx hy
            subst hx
            subst hy
            rfl
    · simp
  constructor
  · exact key
  · intro s hh mm h m hsplit hh1 hm1 h0 h23 m0 m59
    refine ⟨(key s (h * 60 + m)).mpr ⟨hh, mm, h, m, hsplit, hh1, hm1, rfl⟩, by omega, by omega⟩

/-- Witness for the amended C5 on the valid time "06:30". -/
theorem C5_amended_witness :
    parse_time_to_minutes "06:30" = some (6 * 60 + 30) ∧
      (0 : ℤ) ≤ 6 * 60 + 30 ∧ (6 : ℤ) * 60 + 30 ≤ 1439 :=
  C5_amended_parse_characterization.2 "06:30" ['0', '6'] ['3', '0'] 6 30
    (by decide) (by decide) (by decide) (by decide) (by decide) (by decide) (by decide)

theorem sum_filter_activity_split (rows : List Row) :
    ((rows.filter fun r => r.activity == "Nighttime Void").map Row.output).sum +
      ((rows.filter fun r => r.activity == "First Morning Void").map Row.output).sum =
    ((rows.filter fun r =>
        decide (r.activity = "Nighttime Void" ∨ r.activity = "First Morning Void")).map
      Row.output).sum := by
  induction rows with
  | nil => simp
  | cons r t ih =>
    simp only [List.filter_cons]
    by_cases hN : r.activity = "Nighttime Void"
    · have e1 : (r.activity == "Nighttime Void") = true := by simp [hN]
      have e2 : ¬ ((r.activity == "First Morning Void") = true) := by simp [hN]
      have e3 : decide (r.activity = "Nighttime Void" ∨ r.activity = "First Morning Void") = true := by
        rw [hN]
        decide
      rw [if_pos e1, if_neg e2, if_pos e3, List.map_cons, List.sum_cons, List.map_cons,
        List.sum_cons, add_assoc, ih]
    · by_cases hF : r.activity = "First Morning Void"
      · have e1 : ¬ ((r.activity == "Nighttime Void") = true) := by simp [hF]
        have e2 : (r.activity == "First Morning Void") = true := by simp [hF]
        have e3 : decide (r.activity = "Nighttime Void" ∨ r.activity = "First Morning Void") = true := by
          rw [hF]
          decide
        rw [if_neg e1, if_pos e2, if_pos e3, List.map_cons, List.sum_cons, List.map_cons,
          List.sum_cons, ← ih]
        ring
      · have e1 : ¬ ((r.activity == "Nighttime Void") = true) := by simp [hN]
        have e2 : ¬ ((r.activity == "First Morning Void") = true) := by simp [hF]
        have e3 : ¬ (decide (r.activity = "Nighttime Void" ∨ r.activity = "First Morning Void") = true) := by
          simp [hN, hF]
        rw [if_neg e1, if_neg e2, if_neg e3]
        exact ih

/-- Claim C7: nocturnal output sums the outputs of Nighttime Void and First
Morning Void entries, while the nighttime-void count counts only Nighttime
Void entries; a First Morning Void entry never changes the count. -/
theorem C7_nocturnal_aggregation (rows : List Row) (age : ℤ) (w : ℚ) (bed : ℤ) :
    ((analyze rows age w bed).nocturnal_output =
      ((rows.filter fun r =>
          decide (r.activity = "Nighttime Void" ∨ r.activity = "First Morning Void")).map
        Row.output).sum) ∧
    (analyze rows age w bed).nocturnal_urinations =
      ((rows.filter fun r => r.activity == "Nighttime Void").length : ℤ) ∧
    ∀ r : Row, r.activity = "First Morning Void" →
      (analyze (r :: rows) age w bed).nocturnal_urinations =
        (analyze rows age w bed).nocturnal_urinations := by
  refine ⟨?_, rfl, ?_⟩
  · simpa [analyze] using sum_filter_activity_split rows
  · intro r hr
    have hb : (r.activity == "Nighttime Void") = false := by
      rw [hr]
      decide
    simp [analyze, List.filter_cons, hb]

/-- Witness for C7 on the demo log, prepending one First Morning Void row. -/
theorem C7_nocturnal_aggregation_witness :
    (analyze demoRows 50 70 1320).nocturnal_output =
      ((demoRows.filter fun r =>
          decide (r.activity = "Nighttime Void" ∨ r.activity = "First Morning Void")).map
        Row.output).sum ∧
    (analyze (⟨"First Morning Void", "05:00", 0, 100, "N"⟩ :: demoRows) 50 70 1320).nocturnal_urinations =
      (analyze demoRows 50 70 1320).nocturnal_urinations :=
  ⟨(C7_nocturnal_aggregation demoRows 50 70 1320).1,
   (C7_nocturnal_aggregation demoRows 50 70 1320).2.2 _ rfl⟩

theorem long_interval_flag_iff (rows : List Row) :
    long_interval_flag rows = true ↔
      1 < (void_times_mins rows).length ∧
      ∃ i < (void_times_mins rows).length,
        360 < step_interval ((sortTimes (void_times_mins rows)).getD i 0)
          ((sortTimes (void_times_mins rows)).getD
            ((i + 1) % (void_times_mins rows).length) 0) := by
  have hlen : (sortTimes (void_times_mins rows)).length = (void_times_mins rows).length :=
    (List.perm_insertionSort _ _).length_eq
  unfold long_interval_flag
  by_cases h : (void_times_mins rows).length > 1
  · rw [if_pos h]
    unfold intervals_of
    rw [List.any_eq_true]
    simp only [List.mem_map, List.mem_range, hlen, decide_eq_true_eq]
    constructor
    · rintro ⟨x, ⟨i, hi, rfl⟩, hx⟩
      exact ⟨h, i, hi, hx⟩
    · rintro ⟨-, i, hi, hx⟩
      exact ⟨_, ⟨i, hi, rfl⟩, hx⟩
  · rw [if_neg h]
    simp [h]

theorem sorted_dup_adjacent :
    ∀ l : List ℤ, l.Sorted (· ≤ ·) → ¬ l.Nodup →
      ∃ i, i + 1 < l.length ∧ l.getD i 0 = l.getD (i + 1) 0
  | [] => fun _ h => absurd List.nodup_nil h
  | [a] => fun _ h => absurd (List.nodup_singleton a) h
  | a :: b :: t => fun hs hnd => by
    by_cases hmem : a ∈ b :: t
    · have hab : a ≤ b := (List.sorted_cons.mp hs).1 b (List.mem_cons_self b t)
      have hba : b ≤ a := by
        rcases List.mem_cons.mp hmem with h | h
        · exact h.ge
        · exact (List.sorted_cons.mp (List.sorted_cons.mp hs).2).1 a h
      refine ⟨0, ?_, ?_⟩
      · simp only [List.length_cons]
        omega
      · simp only [List.getD_cons_zero, List.getD_cons_succ]
        exact le_antisymm hab hba
    · have hnd2 : ¬ (b :: t).Nodup := fun hn => hnd (List.nodup_cons.mpr ⟨hmem, hn⟩)
      obtain ⟨i, hi, heq⟩ := sorted_dup_adjacent (b :: t) (List.sorted_cons.mp hs).2 hnd2
      refine ⟨i + 1, ?_, ?_⟩
      · simp only [List.length_cons] at hi ⊢
        omega
      · simpa only [List.getD_cons_succ] using heq

/-- Claim C10: whenever at least two entry times parse and two of them are
equal, the long-interval flag is raised: the equal pair sits adjacent in the
sorted list, and the else-branch of the loop computes its interval as
(1440 - t) + t = 1440 > 360. -/
theorem C10_duplicate_time_long_interval (rows : List Row)
    (h2 : 2 ≤ (void_times_mins rows).length)
    (hd : ¬ (void_times_mins rows).Nodup) :
    long_interval_flag rows = true := by
  have hperm := List.perm_insertionSort (α := ℤ) (· ≤ ·) (void_times_mins rows)
  have hlen : (sortTimes (void_times_mins rows)).length = (void_times_mins rows).length :=
    hperm.length_eq
  have hsorted : (sortTimes (void_times_mins rows)).Sorted (· ≤ ·) :=
    List.sorted_insertionSort _ _
  have hnd : ¬ (sortTimes (void_times_mins rows)).Nodup :=
    fun hn => hd (hperm.nodup_iff.mp hn)
  obtain ⟨i, hi, heq⟩ := sorted_dup_adjacent _ hsorted hnd
  rw [long_interval_flag_iff]
  refine ⟨by omega, i, by omega, ?_⟩
  have hmod : (i + 1) % (void_times_mins rows).length = i + 1 :=
    Nat.mod_eq_of_lt (by omega)
  rw [hmod, ← heq, step_interval]
  simp

/-- Witness for C10: two rows with time "06:00" each. -/
theorem C10_duplicate_time_long_interval_witness :
    long_interval_flag
      [⟨"Daytime Void", "06:00", 0, 0, "N"⟩, ⟨"Bedtime Void", "06:00", 0, 0, "N"⟩] = true :=
  C10_duplicate_time_long_interval _ (by decide) (by decide)

/-- Counterexample to claim C2: on times 00:00, 00:00, 06:00, 12:00, 18:00
every circular successive difference of the sorted list (0, 360, 360, 360
and the wrap 360) is at most 360, yet the code raises the flag, because the
else-branch turns the equal adjacent pair into an interval of 1440. -/
theorem C2_counterexample :
    long_interval_flag dupRows = true ∧
    (claim_circular_intervals (sortTimes (void_times_mins dupRows))).all
      (fun d => decide (d ≤ 360)) = true := by
  constructor
  · decide
  · decide

/-- Claim C2 as amended: the flag is raised iff at least two times parse and
some interval of the loop exceeds 360 minutes, where the interval from index
i to its cyclic successor is next - current when next > current and
(1440 - current) + next otherwise (so an equal adjacent pair yields 1440,
not 0); with zero or one valid times the flag is false. -/
theorem C2_amended_long_interval (rows : List Row) :
    (long_interval_flag rows = true ↔
      1 < (void_times_mins rows).length ∧
      ∃ i < (void_times_mins rows).length,
        360 < step_interval ((sortTimes (void_times_mins rows)).getD i 0)
          ((sortTimes (void_times_mins rows)).getD
            ((i + 1) % (void_times_mins rows).length) 0)) ∧
    ((void_times_mins rows).length ≤ 1 → long_interval_flag rows = false) := by
  refine ⟨long_interval_flag_iff rows, fun h => ?_⟩
  unfold long_interval_flag
  rw [if_neg (by omega)]

/-- Witness for the amended C2: the spec's own examples, times 06:00 and
22:00 (intervals 960 and 480, flag raised) and a single time (flag off). -/
theorem C2_amended_long_interval_witness :
    long_interval_flag
      [⟨"Daytime Void", "06:00", 0, 0, "N"⟩, ⟨"Bedtime Void", "22:00", 0, 0, "N"⟩] = true ∧
    long_interval_flag [⟨"Daytime Void", "06:00", 0, 0, "N"⟩] = false :=
  ⟨(C2_amended_long_interval _).1.mpr ⟨by decide, 0, by decide, by decide⟩,
   (C2_amended_long_interval _).2 (by decide)⟩

/-- Claim C3: with a bedtime in 0..1439, the pre-bedtime scan succeeds iff
some row has positive intake and a parseable time inside the 4-hour window
before bed, where cutoff = (bed - 240) mod 1440, the window is
[cutoff, bed) when cutoff < bed and wraps (t ≥ cutoff or t < bed) otherwise;
rows with unparseable times never match; and the pipeline shows the message
only when the nocturnal-polyuria flag is raised. -/
theorem C3_pre_bed_intake_window (rows : List Row) (bed : ℤ)
    (h0 : 0 ≤ bed) (h1 : bed < 1440) :
    (found_4hr_intake rows bed = true ↔
      ∃ r ∈ rows, 0 < r.intake ∧ ∃ t, parse_time_to_minutes r.time = some t ∧
        ((bed - 240) % 1440 < bed ∧ ((bed - 240) % 1440 ≤ t ∧ t < bed) ∨
         bed ≤ (bed - 240) % 1440 ∧ ((bed - 240) % 1440 ≤ t ∨ t < bed))) ∧
    ∀ (age : ℤ) (w : ℚ),
      (analyze rows age w bed).found_4hr_intake_shown =
        ((analyze rows age w bed).metrics.nocturnal_polyuria_flag &&
          found_4hr_intake rows bed) := by
  have hc : (if bed - 240 < 0 then bed - 240 + 1440 else bed - 240) = (bed - 240) % 1440 := by
    split <;> omega
  refine ⟨?_, fun age w => rfl⟩
  have hrw : found_4hr_intake rows bed =
      rows.any (fun row =>
        decide (0 < row.intake) &&
          (match parse_time_to_minutes row.time with
           | none => false
           | some t =>
             if (bed - 240) % 1440 < bed then
               decide ((bed - 240) % 1440 ≤ t ∧ t < bed)
             else decide ((bed - 240) % 1440 ≤ t ∨ t < bed))) := by
    unfold found_4hr_intake
    simp only [hc]
  rw [hrw, List.any_eq_true]
  refine exists_congr fun r => and_congr_right fun _ => ?_
  cases ht : parse_time_to_minutes r.time with
  | none => simp [ht]
  | some t =>
    by_cases hcb : (bed - 240) % 1440 < bed
    · simp [ht, hcb, not_le.mpr hcb]
    · simp [ht, hcb, not_lt.mp hcb]

/-- Witness for C3: bedtime 22:00 (1320 minutes, cutoff 18:00) and the demo
row with 400 ml intake at 18:00. -/
theorem C3_pre_bed_intake_window_witness : found_4hr_intake demoRows 1320 = true :=
  (C3_pre_bed_intake_window demoRows 1320 (by decide) (by decide)).1.mpr
    ⟨⟨"Daytime Void", "18:00", 400, 300, "N"⟩, by decide, by decide, 1080, by decide,
      by decide⟩

end NPapp
